import Mathlib

/-!
Shallow embedding of `functions/api/chat.js` from the kazakhstan-helper
repository: a request handler `onRequestPost` that composes a prompt
(system message from `targetLang`/`style` plus the caller's messages),
tries the GROQ chat-completion endpoint, falls back to DEEPSEEK, and
normalizes provider responses via `parseOpenAICompat`.

JavaScript values reachable in this code are modelled by `JsonVal`
(no `undefined` constructor: an absent value is `Option.none`).
`JSON.parse` of a provider body is abstracted as the `parsed` field of
`FetchResult` (`none` means the raw body is not valid JSON); the network
is abstracted as the outcome each endpoint would return if contacted,
and the handler additionally returns the list of provider calls it
issued, so that "no network call was made" is a statement about that
trace.  `strSlice` stands in for `String.prototype.slice` on the
prefix of the raw body.
-/

namespace KazakhstanHelper

/-- JavaScript/JSON values as they occur in this code. -/
inductive JsonVal where
  | null : JsonVal
  | bool : Bool → JsonVal
  | num : Int → JsonVal
  | str : String → JsonVal
  | arr : List JsonVal → JsonVal
  | obj : List (String × JsonVal) → JsonVal

/-- JavaScript truthiness of a defined value (`null`, `false`, `0`, `""`
are falsy; arrays and objects are always truthy). -/
def jsTruthy : JsonVal → Bool
  | .null => false
  | .bool b => b
  | .num n => n != 0
  | .str s => !s.isEmpty
  | .arr _ => true
  | .obj _ => true

/-- Truthiness of a possibly-undefined value (`undefined` is falsy). -/
def truthyOpt : Option JsonVal → Bool
  | none => false
  | some v => jsTruthy v

/-- First-match lookup in an object's field list (modelled objects carry
distinct keys). -/
def lookupField : List (String × JsonVal) → String → Option JsonVal
  | [], _ => none
  | (k, v) :: rest, key => if k = key then some v else lookupField rest key

/-- Property access `v.key`: defined only on objects here (primitive
wrapper properties such as `length` are not used by this code). -/
def jsGet : JsonVal → String → Option JsonVal
  | .obj fields, key => lookupField fields key
  | _, _ => none

/-- Index access `v[n]`: array element, character of a string, or the
numeric-string key of an object. -/
def jsIndex : JsonVal → Nat → Option JsonVal
  | .arr xs, n => xs.get? n
  | .str s, n => (s.data.get? n).map (fun c => .str (String.singleton c))
  | .obj fields, n => lookupField fields (toString n)
  | _, _ => none

/-- One step of an optional-chaining path. -/
inductive JsStep where
  | fld : String → JsStep
  | idx : Nat → JsStep
deriving DecidableEq

/-- Apply one chaining step to a defined value. -/
def jsStepGet (v : JsonVal) : JsStep → Option JsonVal
  | .fld k => jsGet v k
  | .idx n => jsIndex v n

/-- Optional-chaining path `v?.a?.[i]?...`: any undefined or null link
makes the whole chain undefined. -/
def jsPath (v : JsonVal) (steps : List JsStep) : Option JsonVal :=
  steps.foldl (fun acc st => acc.bind (fun w => jsStepGet w st)) (some v)

/-- JavaScript `a || b` on possibly-undefined values: `a` if truthy,
else `b`. -/
def jsOr (a b : Option JsonVal) : Option JsonVal :=
  if truthyOpt a then a else b

mutual
/-- JavaScript string coercion `String(v)` of the modelled values. -/
def jsToString : JsonVal → String
  | .null => "null"
  | .bool b => if b then "true" else "false"
  | .num n => toString n
  | .str s => s
  | .arr xs => String.intercalate "," (jsToStringElems xs)
  | .obj _ => "[object Object]"

/-- Array elements under string coercion (`null` prints as empty). -/
def jsToStringElems : List JsonVal → List String
  | [] => []
  | .null :: rest => "" :: jsToStringElems rest
  | v :: rest => jsToString v :: jsToStringElems rest
end

/-- A completed HTTP exchange with a provider: status, raw body text,
and the result of `JSON.parse` on that body (`none` on parse failure). -/
structure FetchResult where
  status : Nat
  rawBody : String
  parsed : Option JsonVal

/-- The string prefix `s.slice(0, n)` (JS slices by UTF-16 code units;
characters stand in for code units here). -/
def strSlice (s : String) (n : Nat) : String := ⟨s.data.take n⟩

/-- The fetch `Response.ok` predicate: status in the range 200-299. -/
def resOk (status : Nat) : Bool :=
  decide (200 ≤ status) && decide (status ≤ 299)

/-- Chained lookup `data?.choices?.[0]?.message?.content`. -/
def contentPath : List JsStep :=
  [.fld "choices", .idx 0, .fld "message", .fld "content"]

/-- Chained lookup `data?.choices?.[0]?.text`. -/
def choiceTextPath : List JsStep :=
  [.fld "choices", .idx 0, .fld "text"]

/-- The response normalizer `parseOpenAICompat` of chat.js: substitute
`obj [error: first 300 chars of raw]` when the body fails to parse; on a
non-ok status throw `data?.error?.message || data?.error || "HTTP " ++
status` (string-coerced, as `new Error` does); otherwise return the first
truthy of `choices[0].message.content`, `choices[0].text`, `data.text`,
throwing "Empty response text" when all are falsy or absent. -/
def parseOpenAICompat (res : FetchResult) : Except String JsonVal :=
  let data : JsonVal :=
    match res.parsed with
    | some d => d
    | none => .obj [("error", .str (strSlice res.rawBody 300))]
  if resOk res.status then
    match jsOr (jsPath data contentPath)
        (jsOr (jsPath data choiceTextPath) (jsGet data "text")) with
    | some v => if jsTruthy v then Except.ok v else Except.error "Empty response text"
    | none => Except.error "Empty response text"
  else
    Except.error
      (jsToString
        ((jsOr (jsPath data [.fld "error", .fld "message"])
            (jsOr (jsGet data "error")
              (some (.str ("HTTP " ++ toString res.status))))).getD (.str "")))

/-- Cloudflare environment bindings read by chat.js; an unset variable
is `none`. -/
structure Env where
  GROQ_API_KEY : Option String
  DEEPSEEK_API_KEY : Option String
  GROQ_MODEL : Option String
  DEEPSEEK_MODEL : Option String

/-- Truthiness of an environment variable (`if (env.GROQ_API_KEY)`):
unset or empty is falsy. -/
def envKeyTruthy : Option String → Bool
  | none => false
  | some s => !s.isEmpty

/-- JavaScript `x || d` on a possibly-unset string variable (used for the
model-name overrides). -/
def strOr (o : Option String) (d : String) : String :=
  match o with
  | some s => if s.isEmpty then d else s
  | none => d

/-- Template-literal interpolation of a possibly-unset variable, as in
the Authorization header: `undefined` prints literally. -/
def jsTemplateStr : Option String → String
  | some s => s
  | none => "undefined"

/-- What each provider endpoint would return if contacted: a network-level
failure message (rejection/abort), or a completed exchange. -/
structure Network where
  groq : Except String FetchResult
  deepseek : Except String FetchResult

/-- The two providers, in fallback order. -/
inductive Provider where
  | GROQ : Provider
  | DEEPSEEK : Provider
deriving DecidableEq

/-- Record of one outbound provider call: endpoint, Authorization header,
model name, and the outbound message list of the JSON payload. -/
structure ProviderCall where
  provider : Provider
  url : String
  auth : String
  model : String
  messages : List JsonVal

def groqURL : String := "https://api.groq.com/openai/v1/chat/completions"

def deepseekURL : String := "https://api.deepseek.com/chat/completions"

/-- The call issued by the GROQ leg of chat.js. -/
def mkGroqCall (env : Env) (msgs : List JsonVal) : ProviderCall :=
  { provider := .GROQ
    url := groqURL
    auth := "Bearer " ++ jsTemplateStr env.GROQ_API_KEY
    model := strOr env.GROQ_MODEL "llama-3.3-70b-versatile"
    messages := msgs }

/-- The call issued by the DEEPSEEK leg of chat.js. -/
def mkDeepseekCall (env : Env) (msgs : List JsonVal) : ProviderCall :=
  { provider := .DEEPSEEK
    url := deepseekURL
    auth := "Bearer " ++ jsTemplateStr env.DEEPSEEK_API_KEY
    model := strOr env.DEEPSEEK_MODEL "deepseek-chat"
    messages := msgs }

/-- Language directive selected by the (defaulted) `targetLang` value via
the chained conditional of chat.js; `===` against a string literal only
matches that string. -/
def langRule : JsonVal → String
  | .str "kk" => "Reply ONLY in Kazakh. Never use English."
  | .str "ru" => "Reply ONLY in Russian. Never use English."
  | _ => "Reply ONLY in Simplified Chinese. Never use English."

/-- Style directive selected by the (defaulted) `style` value. -/
def styleRule : JsonVal → String
  | .str "concise" => "Be concise."
  | .str "polite" => "Be polite."
  | _ => "Be natural and helpful."

/-- `body.targetLang || "kk"`. -/
def targetLangVal (body : JsonVal) : JsonVal :=
  match jsGet body "targetLang" with
  | some v => if jsTruthy v then v else .str "kk"
  | none => .str "kk"

/-- `body.style || "normal"`. -/
def styleVal (body : JsonVal) : JsonVal :=
  match jsGet body "style" with
  | some v => if jsTruthy v then v else .str "normal"
  | none => .str "normal"

/-- The synthesized system text: the four parts joined by single
spaces. -/
def systemText (body : JsonVal) : String :=
  "You are a travel translation and phrase assistant for Kazakhstan." ++ " " ++
    langRule (targetLangVal body) ++ " " ++
    styleRule (styleVal body) ++ " " ++
    "When helpful, output short, ready-to-say phrases."

/-- The synthesized system message object. -/
def systemMessage (body : JsonVal) : JsonVal :=
  .obj [("role", .str "system"), ("content", .str (systemText body))]

/-- `Array.isArray(body.messages) ? body.messages : []`. -/
def messagesOf (body : JsonVal) : List JsonVal :=
  match jsGet body "messages" with
  | some (.arr xs) => xs
  | _ => []

/-- The outbound message list: the system message then the caller's
messages, spread unmodified. -/
def finalMessages (body : JsonVal) : List JsonVal :=
  systemMessage body :: messagesOf body

/-- Display of a caught error in the 500 message, `String(e.message || e)`:
a plain Error with an empty message string-coerces to "Error". -/
def errDisplay (m : String) : String :=
  if m.isEmpty then "Error" else m

/-- The combined message of the total-failure 500 response. -/
def totalFailureMessage (e1 e2 : String) : String :=
  "GROQ失败：" ++ errDisplay e1 ++ "；DEEPSEEK失败：" ++ errDisplay e2

/-- Response body: empty text (the OPTIONS reply) or a JSON object to be
stringified. -/
inductive RespBody where
  | empty : RespBody
  | json : JsonVal → RespBody

/-- An HTTP response of the handler (the constant CORS headers are
elided). -/
structure HttpResponse where
  status : Nat
  body : RespBody

/-- A success reply `{text, engine}` (default status 200). -/
def successResponse (text : JsonVal) (engine : String) : HttpResponse :=
  ⟨200, .json (.obj [("text", text), ("engine", .str engine)])⟩

/-- The DEEPSEEK leg with its enclosing catch: called with the retained
primary failure message `e1` and the calls already issued; on its own
failure it produces the combined 500. -/
def secondaryStep (env : Env) (net : Network) (msgs : List JsonVal)
    (e1 : String) (calls0 : List ProviderCall) : HttpResponse × List ProviderCall :=
  let calls := calls0 ++ [mkDeepseekCall env msgs]
  match net.deepseek with
  | .error m =>
      (⟨500, .json (.obj [("error", .str (totalFailureMessage e1 m))])⟩, calls)
  | .ok res =>
      match parseOpenAICompat res with
      | .ok text => (successResponse text "DEEPSEEK", calls)
      | .error m =>
          (⟨500, .json (.obj [("error", .str (totalFailureMessage e1 m))])⟩, calls)

/-- The body of the outer try/catch: the GROQ leg guarded by
`if (env.GROQ_API_KEY)`, every failure falling through to
`secondaryStep` with that failure's message. -/
def handleBody (body : JsonVal) (env : Env) (net : Network) :
    HttpResponse × List ProviderCall :=
  let msgs := finalMessages body
  if envKeyTruthy env.GROQ_API_KEY then
    match net.groq with
    | .error m => secondaryStep env net msgs m [mkGroqCall env msgs]
    | .ok res =>
        match parseOpenAICompat res with
        | .ok text => (successResponse text "GROQ", [mkGroqCall env msgs])
        | .error m => secondaryStep env net msgs m [mkGroqCall env msgs]
  else
    secondaryStep env net msgs "GROQ not configured" []

/-- The handler `onRequestPost`: answer OPTIONS preflights with an empty
body; answer an unparseable body (`parsedBody = none`) with 400
Invalid JSON; otherwise run the two-provider fallback.  The second
component is the trace of provider calls issued. -/
def onRequestPost (method : String) (parsedBody : Option JsonVal)
    (env : Env) (net : Network) : HttpResponse × List ProviderCall :=
  if method = "OPTIONS" then (⟨200, .empty⟩, [])
  else
    match parsedBody with
    | none => (⟨400, .json (.obj [("error", .str "Invalid JSON")])⟩, [])
    | some body => handleBody body env net

/-- Outcome of the primary (GROQ) attempt alone: the value returned, or
the message of the error caught as `e1`. -/
def primaryOutcome (env : Env) (net : Network) : Except String JsonVal :=
  if envKeyTruthy env.GROQ_API_KEY then
    match net.groq with
    | .error m => .error m
    | .ok res => parseOpenAICompat res
  else .error "GROQ not configured"

/-- Outcome of the secondary (DEEPSEEK) attempt alone: the value
returned, or the message of the error caught as `e2`. -/
def secondaryOutcome (net : Network) : Except String JsonVal :=
  match net.deepseek with
  | .error m => .error m
  | .ok res => parseOpenAICompat res

/-- Substring containment of `needle` in `hay`, as character lists. -/
def strContains (hay needle : String) : Prop :=
  needle.data <:+: hay.data

/-- JavaScript `Array.isArray` on a possibly-undefined value. -/
def jsIsArray : Option JsonVal → Bool
  | some (.arr _) => true
  | _ => false

/-! Helper lemmas about the embedding. -/

lemma strContains_intro (hay needle : String) (pre post : List Char)
    (h : hay.data = pre ++ (needle.data ++ post)) : strContains hay needle := by
  refine ⟨pre, post, ?_⟩
  rw [List.append_assoc]
  exact h.symm

lemma strContains_empty (hay : String) : strContains hay "" :=
  ⟨[], hay.data, by simp⟩

lemma jsOr_pos (a b : Option JsonVal) (h : truthyOpt a = true) : jsOr a b = a := by
  simp [jsOr, h]

lemma jsOr_neg (a b : Option JsonVal) (h : truthyOpt a = false) : jsOr a b = b := by
  simp [jsOr, h]

lemma onRequestPost_post_some (body : JsonVal) (env : Env) (net : Network) :
    onRequestPost "POST" (some body) env net = handleBody body env net := by
  unfold onRequestPost
  rw [if_neg (by decide)]

lemma secondaryStep_snd (env : Env) (net : Network) (msgs : List JsonVal)
    (e1 : String) (calls0 : List ProviderCall) :
    (secondaryStep env net msgs e1 calls0).2 = calls0 ++ [mkDeepseekCall env msgs] := by
  cases hd : net.deepseek with
  | error m => simp [secondaryStep, hd]
  | ok res => cases hp : parseOpenAICompat res <;> simp [secondaryStep, hd, hp]

lemma secondaryStep_error (env : Env) (net : Network) (msgs : List JsonVal)
    (e1 e2 : String) (calls0 : List ProviderCall)
    (h : secondaryOutcome net = .error e2) :
    secondaryStep env net msgs e1 calls0 =
      (⟨500, .json (.obj [("error", .str (totalFailureMessage e1 e2))])⟩,
        calls0 ++ [mkDeepseekCall env msgs]) := by
  unfold secondaryOutcome at h
  cases hd : net.deepseek with
  | error m =>
      simp only [hd, Except.error.injEq] at h
      subst h
      simp [secondaryStep, hd]
  | ok res =>
      simp only [hd] at h
      simp [secondaryStep, hd, h]

lemma handleBody_primary_error (body : JsonVal) (env : Env) (net : Network)
    (e1 : String) (h : primaryOutcome env net = .error e1) :
    handleBody body env net =
      secondaryStep env net (finalMessages body) e1
        (if envKeyTruthy env.GROQ_API_KEY then [mkGroqCall env (finalMessages body)]
         else []) := by
  unfold primaryOutcome at h
  cases hk : envKeyTruthy env.GROQ_API_KEY with
  | false =>
      simp only [hk, Bool.false_eq_true, if_false, Except.error.injEq] at h
      subst h
      simp [handleBody, hk]
  | true =>
      simp only [hk, if_true] at h
      cases hg : net.groq with
      | error m =>
          simp only [hg, Except.error.injEq] at h
          subst h
          simp [handleBody, hk, hg]
      | ok res =>
          simp only [hg] at h
          simp [handleBody, hk, hg, h]

lemma handleBody_calls (body : JsonVal) (env : Env) (net : Network) :
    (handleBody body env net).2 = [mkGroqCall env (finalMessages body)] ∨
    (handleBody body env net).2 =
      [mkGroqCall env (finalMessages body), mkDeepseekCall env (finalMessages body)] ∨
    (handleBody body env net).2 = [mkDeepseekCall env (finalMessages body)] := by
  cases hk : envKeyTruthy env.GROQ_API_KEY with
  | false =>
      right; right
      simp [handleBody, hk, secondaryStep_snd]
  | true =>
      cases hg : net.groq with
      | error m =>
          right; left
          simp [handleBody, hk, hg, secondaryStep_snd]
      | ok res =>
          cases hp : parseOpenAICompat res with
          | ok t =>
              left
              simp [handleBody, hk, hg, hp]
          | error m =>
              right; left
              simp [handleBody, hk, hg, hp, secondaryStep_snd]

lemma totalFailure_data (e1 e2 : String) :
    (totalFailureMessage e1 e2).data =
      "GROQ失败：".data ++ ((errDisplay e1).data ++
        ("；DEEPSEEK失败：".data ++ (errDisplay e2).data)) := by
  simp [totalFailureMessage, String.data_append, List.append_assoc]

lemma totalFailure_contains_e1 (e1 e2 : String) :
    strContains (totalFailureMessage e1 e2) e1 := by
  by_cases he : e1.isEmpty = true
  · rw [(String.isEmpty_iff e1).mp he]
    exact strContains_empty _
  · apply strContains_intro _ _ ("GROQ失败：".data)
      ("；DEEPSEEK失败：".data ++ (errDisplay e2).data)
    rw [totalFailure_data]
    simp [errDisplay, he]

lemma totalFailure_contains_e2 (e1 e2 : String) :
    strContains (totalFailureMessage e1 e2) e2 := by
  by_cases he : e2.isEmpty = true
  · rw [(String.isEmpty_iff e2).mp he]
    exact strContains_empty _
  · apply strContains_intro _ _
      ("GROQ失败：".data ++ ((errDisplay e1).data ++ "；DEEPSEEK失败：".data)) []
    rw [totalFailure_data]
    simp [errDisplay, he, List.append_assoc]

lemma totalFailure_contains_groq (e1 e2 : String) :
    strContains (totalFailureMessage e1 e2) "GROQ" := by
  apply strContains_intro _ _ []
    ("失败：".data ++ ((errDisplay e1).data ++
      ("；DEEPSEEK失败：".data ++ (errDisplay e2).data)))
  rw [totalFailure_data]
  have hsplit : "GROQ失败：".data = "GROQ".data ++ "失败：".data := by decide
  rw [hsplit]
  simp [List.append_assoc]

lemma totalFailure_contains_deepseek (e1 e2 : String) :
    strContains (totalFailureMessage e1 e2) "DEEPSEEK" := by
  apply strContains_intro _ _
    ("GROQ失败：".data ++ ((errDisplay e1).data ++ "；".data))
    ("失败：".data ++ (errDisplay e2).data)
  rw [totalFailure_data]
  have hsplit : "；DEEPSEEK失败：".data =
      "；".data ++ ("DEEPSEEK".data ++ "失败：".data) := by decide
  rw [hsplit]
  simp [List.append_assoc]

/-! Concrete inputs used by witnesses and counterexamples. -/

/-- An environment with no variables set at all. -/
def env0 : Env := ⟨none, none, none, none⟩

/-- A network on which both endpoints fail at the network level. -/
def net0 : Network := ⟨.error "boom1", .error "boom2"⟩

/-- An environment with both API keys configured. -/
def envK : Env := ⟨some "gk", some "dk", none, none⟩

/-- A network on which both endpoints fail with messages X and Y. -/
def netXY : Network := ⟨.error "X", .error "Y"⟩

/-! Claim theorems. -/

/-- C1: whenever the primary (GROQ) attempt fails with message X and the
secondary (DEEPSEEK) attempt fails with message Y, the handler returns a
500 response whose error message contains X, Y and both provider
names. -/
theorem chat_C1 (env : Env) (net : Network) (body : JsonVal) (eX eY : String)
    (h1 : primaryOutcome env net = .error eX)
    (h2 : secondaryOutcome net = .error eY) :
    (onRequestPost "POST" (some body) env net).1 =
      ⟨500, .json (.obj [("error", .str (totalFailureMessage eX eY))])⟩ ∧
    strContains (totalFailureMessage eX eY) eX ∧
    strContains (totalFailureMessage eX eY) eY ∧
    strContains (totalFailureMessage eX eY) "GROQ" ∧
    strContains (totalFailureMessage eX eY) "DEEPSEEK" := by
  refine ⟨?_, totalFailure_contains_e1 eX eY, totalFailure_contains_e2 eX eY,
    totalFailure_contains_groq eX eY, totalFailure_contains_deepseek eX eY⟩
  rw [onRequestPost_post_some, handleBody_primary_error body env net eX h1,
    secondaryStep_error env net (finalMessages body) eX eY _ h2]

/-- C1 witness: both keys set, both endpoints failing with messages X
and Y. -/
theorem chat_C1_witness :
    (onRequestPost "POST" (some (.obj [])) envK netXY).1 =
      ⟨500, .json (.obj [("error", .str (totalFailureMessage "X" "Y"))])⟩ ∧
    strContains (totalFailureMessage "X" "Y") "X" ∧
    strContains (totalFailureMessage "X" "Y") "Y" ∧
    strContains (totalFailureMessage "X" "Y") "GROQ" ∧
    strContains (totalFailureMessage "X" "Y") "DEEPSEEK" :=
  chat_C1 envK netXY (.obj []) "X" "Y" rfl rfl

/-- C2: when the GROQ credential is absent, the primary attempt fails
immediately with the message "GROQ not configured" (which contains
"not configured"), no network call is issued to GROQ, and the handler
proceeds directly to the secondary attempt: the trace is exactly one
DEEPSEEK call. -/
theorem chat_C2 (env : Env) (net : Network) (body : JsonVal)
    (h : envKeyTruthy env.GROQ_API_KEY = false) :
    primaryOutcome env net = .error "GROQ not configured" ∧
    strContains "GROQ not configured" "not configured" ∧
    onRequestPost "POST" (some body) env net =
      secondaryStep env net (finalMessages body) "GROQ not configured" [] ∧
    (onRequestPost "POST" (some body) env net).2.map ProviderCall.provider =
      [Provider.DEEPSEEK] := by
  have hp : primaryOutcome env net = .error "GROQ not configured" := by
    simp [primaryOutcome, h]
  have hh : onRequestPost "POST" (some body) env net =
      secondaryStep env net (finalMessages body) "GROQ not configured" [] := by
    rw [onRequestPost_post_some, handleBody_primary_error body env net _ hp, h]
    simp
  refine ⟨hp, by unfold strContains; decide, hh, ?_⟩
  rw [hh, secondaryStep_snd]
  simp [mkDeepseekCall]

/-- C2 witness: empty environment, both endpoints would fail. -/
theorem chat_C2_witness :
    primaryOutcome env0 net0 = .error "GROQ not configured" ∧
    strContains "GROQ not configured" "not configured" ∧
    onRequestPost "POST" (some (.obj [])) env0 net0 =
      secondaryStep env0 net0 (finalMessages (.obj [])) "GROQ not configured" [] ∧
    (onRequestPost "POST" (some (.obj [])) env0 net0).2.map ProviderCall.provider =
      [Provider.DEEPSEEK] :=
  chat_C2 env0 net0 (.obj []) rfl

/-- C3 counterexample: with DEEPSEEK_API_KEY unset, the handler still
issues the network call to DEEPSEEK, with the literal header
"Bearer undefined" — the secondary attempt is not disabled by the
missing credential. -/
theorem chat_C3_cex :
    env0.DEEPSEEK_API_KEY = none ∧
    (onRequestPost "POST" (some (.obj [])) env0 net0).2.map ProviderCall.provider =
      [Provider.DEEPSEEK] ∧
    (onRequestPost "POST" (some (.obj [])) env0 net0).2.map ProviderCall.auth =
      ["Bearer undefined"] :=
  ⟨rfl, rfl, rfl⟩

/-- C3 amended: absence of the GROQ key disables the primary attempt
without erroring the whole request (exactly one call, to DEEPSEEK, is
issued); absence of the DEEPSEEK key does not disable the secondary
attempt — whenever the primary attempt fails, the DEEPSEEK call is
issued even with DEEPSEEK_API_KEY unset. -/
theorem chat_C3_thm (env : Env) (net : Network) (body : JsonVal) (e1 : String) :
    (envKeyTruthy env.GROQ_API_KEY = false →
      (onRequestPost "POST" (some body) env net).2.map ProviderCall.provider =
        [Provider.DEEPSEEK]) ∧
    (primaryOutcome env net = .error e1 → env.DEEPSEEK_API_KEY = none →
      Provider.DEEPSEEK ∈
        (onRequestPost "POST" (some body) env net).2.map ProviderCall.provider) := by
  constructor
  · intro h
    have hp : primaryOutcome env net = .error "GROQ not configured" := by
      simp [primaryOutcome, h]
    rw [onRequestPost_post_some, handleBody_primary_error body env net _ hp, h]
    simp only [Bool.false_eq_true, if_false]
    rw [secondaryStep_snd]
    simp [mkDeepseekCall]
  · intro hfail _
    rw [onRequestPost_post_some, handleBody_primary_error body env net e1 hfail,
      secondaryStep_snd]
    simp [mkDeepseekCall]

/-- C3 witness for the amended claim: empty environment. -/
theorem chat_C3_witness :
    (onRequestPost "POST" (some (.obj [])) env0 net0).2.map ProviderCall.provider =
      [Provider.DEEPSEEK] ∧
    Provider.DEEPSEEK ∈
      (onRequestPost "POST" (some (.obj [])) env0 net0).2.map ProviderCall.provider :=
  ⟨(chat_C3_thm env0 net0 (.obj []) "GROQ not configured").1 rfl,
    (chat_C3_thm env0 net0 (.obj []) "GROQ not configured").2 rfl rfl⟩

/-- C9: a request whose body is not parseable JSON gets a 400
Invalid JSON response, and no provider call is issued. -/
theorem chat_C9 (env : Env) (net : Network) :
    onRequestPost "POST" none env net =
      (⟨400, .json (.obj [("error", .str "Invalid JSON")])⟩, []) := by
  unfold onRequestPost
  rw [if_neg (by decide)]

/-- C4: on a success-status response with a parsed JSON body, the
normalizer checks, in order, `choices[0].message.content`, then
`choices[0].text`, then top-level `text`, returning the first value
yielding non-empty (truthy) text; if none does, it fails with the
"Empty response text" error. -/
theorem chat_C4 (res : FetchResult) (data : JsonVal)
    (hok : resOk res.status = true) (hp : res.parsed = some data) :
    (∀ v, jsPath data contentPath = some v → jsTruthy v = true →
      parseOpenAICompat res = .ok v) ∧
    (truthyOpt (jsPath data contentPath) = false →
      ∀ v, jsPath data choiceTextPath = some v → jsTruthy v = true →
        parseOpenAICompat res = .ok v) ∧
    (truthyOpt (jsPath data contentPath) = false →
      truthyOpt (jsPath data choiceTextPath) = false →
      ∀ v, jsGet data "text" = some v → jsTruthy v = true →
        parseOpenAICompat res = .ok v) ∧
    (truthyOpt (jsPath data contentPath) = false →
      truthyOpt (jsPath data choiceTextPath) = false →
      truthyOpt (jsGet data "text") = false →
      parseOpenAICompat res = .error "Empty response text") := by
  have hbase : parseOpenAICompat res =
      match jsOr (jsPath data contentPath)
          (jsOr (jsPath data choiceTextPath) (jsGet data "text")) with
      | some v => if jsTruthy v then Except.ok v else Except.error "Empty response text"
      | none => Except.error "Empty response text" := by
    simp only [parseOpenAICompat, hp, hok, if_true]
  refine ⟨?_, ?_, ?_, ?_⟩
  · intro v hv ht
    have htr : truthyOpt (jsPath data contentPath) = true := by
      rw [hv]; simp [truthyOpt, ht]
    rw [hbase, jsOr_pos _ _ htr, hv]
    simp [ht]
  · intro hA v hv ht
    have htr : truthyOpt (jsPath data choiceTextPath) = true := by
      rw [hv]; simp [truthyOpt, ht]
    rw [hbase, jsOr_neg _ _ hA, jsOr_pos _ _ htr, hv]
    simp [ht]
  · intro hA hB v hv ht
    rw [hbase, jsOr_neg _ _ hA, jsOr_neg _ _ hB, hv]
    simp [ht]
  · intro hA hB hC
    rw [hbase, jsOr_neg _ _ hA, jsOr_neg _ _ hB]
    cases hc : jsGet data "text" with
    | none => rfl
    | some v =>
        rw [hc] at hC
        simp only [truthyOpt] at hC
        simp [hC]

/-- The sample chat-completion body of the spec's testable property:
`choices[0].message.content` holds the completion text. -/
def dataC4 : JsonVal :=
  .obj [("choices", .arr [.obj [("message", .obj [("content", .str "Sәlem")])]])]

def resC4 : FetchResult := ⟨200, "", some dataC4⟩

/-- C4 witness: the spec's sample response normalizes to its
message content. -/
theorem chat_C4_witness : parseOpenAICompat resC4 = .ok (.str "Sәlem") :=
  (chat_C4 resC4 dataC4 rfl rfl).1 (.str "Sәlem") rfl rfl

/-- C5 counterexample: an invalid-JSON body on a success-status response
makes the normalizer fail with "Empty response text", which does not
contain the first 300 characters of the raw body — so the claim's
"regardless of HTTP status" is false. -/
def resC5ok : FetchResult := ⟨200, "xyz123notjson", none⟩

theorem chat_C5_cex :
    resC5ok.parsed = none ∧ resOk resC5ok.status = true ∧
    parseOpenAICompat resC5ok = .error "Empty response text" ∧
    ¬ strContains "Empty response text" (strSlice resC5ok.rawBody 300) := by
  refine ⟨rfl, rfl, rfl, ?_⟩
  unfold strContains
  decide

/-- C5 amended: for a response whose body is not valid JSON, the
normalizer's failure message contains the first 300 characters of the
raw body only when the HTTP status is not in the success range; on a
success status it fails with "Empty response text" instead. -/
theorem chat_C5_thm (res : FetchResult) (hp : res.parsed = none) :
    (resOk res.status = false →
      ∃ m : String, parseOpenAICompat res = .error m ∧
        strContains m (strSlice res.rawBody 300)) ∧
    (resOk res.status = true →
      parseOpenAICompat res = .error "Empty response text") := by
  constructor
  · intro hok
    cases ht : (strSlice res.rawBody 300).isEmpty with
    | true =>
        refine ⟨"HTTP " ++ toString res.status, ?_, ?_⟩
        · simp only [parseOpenAICompat, hp, hok, Bool.false_eq_true, if_false]
          simp [jsPath, jsStepGet, jsGet, lookupField, jsOr, truthyOpt, jsTruthy,
            ht, jsToString]
        · rw [(String.isEmpty_iff _).mp ht]
          exact strContains_empty _
    | false =>
        refine ⟨strSlice res.rawBody 300, ?_, ?_⟩
        · simp only [parseOpenAICompat, hp, hok, Bool.false_eq_true, if_false]
          simp [jsPath, jsStepGet, jsGet, lookupField, jsOr, truthyOpt, jsTruthy,
            ht, jsToString]
        · exact strContains_intro _ _ [] [] (by simp)
  · intro hok
    simp only [parseOpenAICompat, hp, hok, if_true]
    rfl

def resC5err : FetchResult := ⟨503, "upstream exploded", none⟩

/-- C5 witness: invalid JSON on a 503 yields a message containing the
raw-body prefix; invalid JSON on a 200 yields "Empty response text". -/
theorem chat_C5_witness :
    (∃ m : String, parseOpenAICompat resC5err = .error m ∧
      strContains m (strSlice resC5err.rawBody 300)) ∧
    parseOpenAICompat resC5ok = .error "Empty response text" :=
  ⟨(chat_C5_thm resC5err rfl).1 rfl, (chat_C5_thm resC5ok rfl).2 rfl⟩

/-- C6: on a non-success status with a parsed JSON body, the failure
message is taken in priority order from a non-empty `error.message`
string, else a non-empty `error` string, else the generic
"HTTP " ++ status string. -/
theorem chat_C6 (res : FetchResult) (data : JsonVal)
    (hok : resOk res.status = false) (hp : res.parsed = some data) :
    (∀ m : String, jsPath data [.fld "error", .fld "message"] = some (.str m) →
      m ≠ "" → parseOpenAICompat res = .error m) ∧
    (truthyOpt (jsPath data [.fld "error", .fld "message"]) = false →
      ∀ e : String, jsGet data "error" = some (.str e) → e ≠ "" →
        parseOpenAICompat res = .error e) ∧
    (truthyOpt (jsPath data [.fld "error", .fld "message"]) = false →
      truthyOpt (jsGet data "error") = false →
      parseOpenAICompat res = .error ("HTTP " ++ toString res.status)) := by
  have hbase : parseOpenAICompat res =
      .error (jsToString
        ((jsOr (jsPath data [.fld "error", .fld "message"])
            (jsOr (jsGet data "error")
              (some (.str ("HTTP " ++ toString res.status))))).getD (.str ""))) := by
    simp only [parseOpenAICompat, hp, hok, Bool.false_eq_true, if_false]
  refine ⟨?_, ?_, ?_⟩
  · intro m hm hne
    have him : m.isEmpty = false := by
      cases hE : m.isEmpty with
      | false => rfl
      | true => exact absurd ((String.isEmpty_iff m).mp hE) hne
    rw [hbase, hm]
    simp [jsOr, truthyOpt, jsTruthy, him, jsToString]
  · intro hA e he hne
    have him : e.isEmpty = false := by
      cases hE : e.isEmpty with
      | false => rfl
      | true => exact absurd ((String.isEmpty_iff e).mp hE) hne
    rw [hbase, jsOr_neg _ _ hA, he]
    simp [jsOr, truthyOpt, jsTruthy, him, jsToString]
  · intro hA hB
    rw [hbase, jsOr_neg _ _ hA, jsOr_neg _ _ hB]
    simp [jsToString]

def dataC6 : JsonVal := .obj [("error", .obj [("message", .str "rate limited")])]

def resC6 : FetchResult := ⟨429, "", some dataC6⟩

/-- C6 witness: a 429 with a standard nested error message. -/
theorem chat_C6_witness : parseOpenAICompat resC6 = .error "rate limited" :=
  (chat_C6 resC6 dataC6 rfl rfl).1 "rate limited" rfl (by decide)

/-- C7: the language-directive selection of the system message: "kk"
selects the Kazakh directive, "ru" the Russian one, and any other value
(including "zh") the Simplified-Chinese one; the selected directive
occurs in the synthesized system text. -/
theorem chat_C7 :
    langRule (.str "kk") = "Reply ONLY in Kazakh. Never use English." ∧
    langRule (.str "ru") = "Reply ONLY in Russian. Never use English." ∧
    langRule (.str "zh") = "Reply ONLY in Simplified Chinese. Never use English." ∧
    (∀ v : JsonVal, v ≠ .str "kk" → v ≠ .str "ru" →
      langRule v = "Reply ONLY in Simplified Chinese. Never use English.") ∧
    ∀ body : JsonVal, strContains (systemText body) (langRule (targetLangVal body)) := by
  refine ⟨rfl, rfl, rfl, ?_, ?_⟩
  · intro v hkk hru
    unfold langRule
    split <;> simp_all
  · intro body
    apply strContains_intro _ _
      ("You are a travel translation and phrase assistant for Kazakhstan.".data ++
        " ".data)
      (" ".data ++ ((styleRule (styleVal body)).data ++
        (" ".data ++ "When helpful, output short, ready-to-say phrases.".data)))
    simp [systemText, String.data_append, List.append_assoc]

/-- C7 witness: "zh" falls into the Chinese default branch, and the
directive occurs in a concrete system text. -/
theorem chat_C7_witness :
    langRule (.str "zh") = "Reply ONLY in Simplified Chinese. Never use English." ∧
    strContains (systemText (.obj [])) (langRule (targetLangVal (.obj []))) :=
  ⟨chat_C7.2.2.2.1 (.str "zh") (by simp) (by simp), chat_C7.2.2.2.2 (.obj [])⟩

/-- C8: every outbound provider payload carries exactly the synthesized
system message followed by the caller's messages in order; a
`messages` field that is an array passes through unmodified, and a
missing or non-array field is treated as the empty sequence. -/
theorem chat_C8 (body : JsonVal) (env : Env) (net : Network) :
    (∀ c ∈ (onRequestPost "POST" (some body) env net).2,
      c.messages = systemMessage body :: messagesOf body) ∧
    (∀ xs : List JsonVal, jsGet body "messages" = some (.arr xs) →
      messagesOf body = xs) ∧
    (jsIsArray (jsGet body "messages") = false → messagesOf body = []) := by
  refine ⟨?_, ?_, ?_⟩
  · intro c hc
    rw [onRequestPost_post_some] at hc
    have hmsg : systemMessage body :: messagesOf body = finalMessages body := rfl
    rw [hmsg]
    rcases handleBody_calls body env net with h | h | h <;> rw [h] at hc <;>
      simp at hc
    · rw [hc]; rfl
    · rcases hc with hc | hc <;> rw [hc] <;> rfl
    · rw [hc]; rfl
  · intro xs hxs
    unfold messagesOf
    rw [hxs]
  · intro h
    cases hg : jsGet body "messages" with
    | none => simp [messagesOf, hg]
    | some v => cases v <;> simp_all [messagesOf, jsIsArray, hg]

/-- A request body with an array messages field. -/
def bodyW : JsonVal :=
  .obj [("messages", .arr [.str "hi"]), ("targetLang", .str "ru")]

/-- C8 witness: a concrete outbound call carries the system message then
the caller's message; an array field passes through; a string field is
treated as empty. -/
theorem chat_C8_witness :
    (mkDeepseekCall env0 (finalMessages bodyW)).messages =
      systemMessage bodyW :: messagesOf bodyW ∧
    messagesOf bodyW = [.str "hi"] ∧
    messagesOf (.obj [("messages", .str "oops")]) = [] :=
  ⟨(chat_C8 bodyW env0 net0).1 _ (List.Mem.head _),
    (chat_C8 bodyW env0 net0).2.1 [.str "hi"] rfl,
    (chat_C8 (.obj [("messages", .str "oops")]) env0 net0).2.2 rfl⟩

/-- C10: a missing or falsy `targetLang` defaults to "kk", so the
Kazakh directive is selected, not the Chinese default branch. -/
theorem chat_C10 (body : JsonVal)
    (h : truthyOpt (jsGet body "targetLang") = false) :
    targetLangVal body = .str "kk" ∧
    langRule (targetLangVal body) = "Reply ONLY in Kazakh. Never use English." := by
  have h1 : targetLangVal body = .str "kk" := by
    unfold targetLangVal
    cases hg : jsGet body "targetLang" with
    | none => rfl
    | some v =>
        rw [hg] at h
        simp only [truthyOpt] at h
        simp [h]
  refine ⟨h1, ?_⟩
  rw [h1]
  rfl

/-- C10 witness: an empty-string targetLang (falsy) selects Kazakh. -/
theorem chat_C10_witness :
    targetLangVal (.obj [("targetLang", .str "")]) = .str "kk" ∧
    langRule (targetLangVal (.obj [("targetLang", .str "")])) =
      "Reply ONLY in Kazakh. Never use English." :=
  chat_C10 (.obj [("targetLang", .str "")]) rfl

end KazakhstanHelper
